import Mathlib

/-!
Shallow embedding of `src/sketch.ino` (button-driven menu navigation on an
ESP32-class device): the Input Classifier task (`ButtonInput_Thread`), the
Menu Engine task (`MenuLogic_Thread`) and the Display Sink task
(`DisplayManager_Thread`), together with theorems checking the
natural-language specification against this embedding.

Time is modelled in milliseconds as `Nat`.  On the target, `TickType_t`
values come from a 1 kHz FreeRTOS tick, so `pdMS_TO_TICKS` is the identity
and tick arithmetic is millisecond arithmetic; `TickType_t` subtraction on
a monotone clock is `Nat` truncated subtraction.
-/

/-! ## Constants (the `#define`s at the top of the sketch) -/

def DEBOUNCE_TICKS : Nat := 4
def SHORT_PRESS_MAX_MS : Nat := 300
def LONG_PRESS_MIN_MS : Nat := 1500
def MULTI_CLICK_TIMEOUT_MS : Nat := 700
def AUTO_CYCLE_PERIOD_MS : Nat := 2000
def NUM_PATTERNS : Nat := 4
def MENU_ITEMS_COUNT : Nat := 4
def BRIGHTNESS_MAX : Nat := 10
def BRIGHTNESS_MIN : Nat := 0

/-- The fixed pattern table `patterns[NUM_PATTERNS]`. -/
def patterns : List Nat := [0xFFFF, 0xAAAA, 0x5555, 0x0F0F]

/-- `patterns[i]`; every read in the sketch has `i` in `0..3`. -/
def patternAt (i : Nat) : Nat := patterns.getD i 0

/-! ## Input Classifier data model -/

/-- `press_type_t`. -/
inductive press_type_t where
  | PRESS_SINGLE
  | PRESS_DOUBLE
  | PRESS_TRIPLE
  | PRESS_LONG
deriving DecidableEq, Repr

export press_type_t (PRESS_SINGLE PRESS_DOUBLE PRESS_TRIPLE PRESS_LONG)

/-- `button_event_t` (button_id is 1..3 as produced by the classifier). -/
structure button_event_t where
  button_id : Nat
  type : press_type_t
  timestamp : Nat
deriving DecidableEq, Repr

/-- `button_tracker_t`.  The C field `press_times` is a raw 4-element
array; it is embedded as a total map `Nat → Nat` so that the index of
every write is visible (an index `≥ 4` is an out-of-bounds write in the
C program). -/
structure button_tracker_t where
  last_state : Bool
  debounce_counter : Nat
  press_start_time : Nat
  last_release_time : Nat
  click_counter : Nat
  press_times : Nat → Nat

/-- The initial tracker `{pin, false, 0, 0, 0, 0, {0,0,0,0}}`. -/
def initTracker : button_tracker_t :=
  { last_state := false
    debounce_counter := 0
    press_start_time := 0
    last_release_time := 0
    click_counter := 0
    press_times := fun _ => 0 }

/-- The accepted-press branch of `ButtonInput_Thread` (sketch lines
122–132): bump or restart `click_counter` depending on the gap since the
last release, then record this press's timestamp at index
`click_counter`. -/
def onPress (b : button_tracker_t) (now : Nat) : button_tracker_t :=
  let cc :=
    if b.last_release_time > 0 ∧ now - b.last_release_time < MULTI_CLICK_TIMEOUT_MS
    then b.click_counter + 1
    else 1
  { b with
    press_start_time := now
    click_counter := cc
    press_times := fun j => if j = cc then now else b.press_times j
    last_release_time := 0 }

/-- The index written into `press_times` by `onPress` (line 131 of the
sketch writes `b->press_times[b->click_counter] = now` after the counter
update). -/
def pressWriteIndex (b : button_tracker_t) (now : Nat) : Nat :=
  (onPress b now).click_counter

/-- The accepted-release branch of `ButtonInput_Thread` (sketch lines
133–147). -/
def onRelease (id : Nat) (b : button_tracker_t) (now : Nat) :
    button_tracker_t × List button_event_t :=
  let duration := now - b.press_start_time
  if duration ≥ LONG_PRESS_MIN_MS then
    ({ b with click_counter := 0, last_release_time := 0 },
     [⟨id, PRESS_LONG, now⟩])
  else if duration ≤ SHORT_PRESS_MAX_MS then
    ({ b with last_release_time := now }, [])
  else
    ({ b with click_counter := 0, last_release_time := 0 }, [])

/-- The multi-click resolution policy (sketch lines 156–204): the press
types emitted when a pending sequence of `count` clicks, whose first
three press timestamps are `t1 t2 t3`, times out.  Counts other than
1, 2, 3 fall through the `if`/`else if` chain and emit nothing. -/
def resolveClicks (count t1 t2 t3 : Nat) : List press_type_t :=
  if count = 1 then
    [PRESS_SINGLE]
  else if count = 2 then
    if t2 - t1 < 500 then [PRESS_DOUBLE]
    else [PRESS_SINGLE, PRESS_SINGLE]
  else if count = 3 then
    if t3 - t1 < 700 then [PRESS_TRIPLE]
    else if t2 - t1 < 500 then [PRESS_DOUBLE, PRESS_SINGLE]
    else if t3 - t2 < 500 then [PRESS_SINGLE, PRESS_DOUBLE]
    else [PRESS_SINGLE, PRESS_SINGLE, PRESS_SINGLE]
  else []

/-- One polling iteration of `ButtonInput_Thread` for one button (sketch
lines 112–207): debounce the raw sample, run the accepted press/release
transition if the debounce threshold is reached, then check whether a
pending click sequence has timed out and, if so, finalize it. -/
def buttonTick (id : Nat) (b : button_tracker_t) (raw_pressed : Bool)
    (now : Nat) : button_tracker_t × List button_event_t :=
  let step :=
    if raw_pressed = b.last_state then
      ({ b with debounce_counter := 0 }, [])
    else if b.debounce_counter + 1 ≥ DEBOUNCE_TICKS then
      let b1 := { b with debounce_counter := 0, last_state := raw_pressed }
      if raw_pressed then (onPress b1 now, [])
      else onRelease id b1 now
    else
      ({ b with debounce_counter := b.debounce_counter + 1 }, [])
  let b1 := step.1
  if b1.click_counter ≥ 1 ∧ b1.last_release_time > 0 ∧
      now - b1.last_release_time ≥ MULTI_CLICK_TIMEOUT_MS then
    ({ b1 with click_counter := 0, last_release_time := 0 },
     step.2 ++ (resolveClicks b1.click_counter (b1.press_times 1)
        (b1.press_times 2) (b1.press_times 3)).map (fun t => ⟨id, t, now⟩))
  else
    (b1, step.2)

/-- Run `buttonTick` over a list of raw samples, one per 5 ms polling
tick, starting at time `t0`. -/
def runTicks (id : Nat) (b : button_tracker_t) (samples : List Bool)
    (t0 : Nat) : button_tracker_t × List button_event_t :=
  match samples with
  | [] => (b, [])
  | s :: rest =>
    let step := buttonTick id b s t0
    let next := runTicks id step.1 rest (t0 + 5)
    (next.1, step.2 ++ next.2)

example : resolveClicks 1 0 0 0 = [PRESS_SINGLE] := by decide
example : resolveClicks 3 15 115 215 = [PRESS_TRIPLE] := by decide
example : resolveClicks 4 0 100 200 = [] := by decide

/-! ## Menu Engine data model (`MenuLogic_Thread`) -/

/-- `menu_state_t`. -/
inductive menu_state_t where
  | STATE_MAIN_MENU
  | STATE_BRIGHTNESS
  | STATE_MODE_SELECT
  | STATE_MANUAL_MODE
  | STATE_AUTO_MODE
  | STATE_INFO
  | STATE_RESET
  | STATE_POWER_OFF
deriving DecidableEq, Repr

export menu_state_t (STATE_MAIN_MENU STATE_BRIGHTNESS STATE_MODE_SELECT
  STATE_MANUAL_MODE STATE_AUTO_MODE STATE_INFO STATE_RESET STATE_POWER_OFF)

/-- `display_info_t`. -/
structure display_info_t where
  pattern : Nat
  brightness : Nat
deriving DecidableEq, Repr

/-- The locals of `MenuLogic_Thread`: the current state plus the menu
context (persistent fields and the two staging fields). -/
structure EngineState where
  state : menu_state_t
  selected_item : Nat
  brightness : Nat
  is_auto_mode : Bool
  current_pattern_idx : Nat
  info_page : Nat
  temp_is_auto_mode : Bool
  temp_pattern_idx : Nat
deriving DecidableEq, Repr

/-- The initial values of `MenuLogic_Thread`'s locals (sketch lines
214–223). -/
def initEngine : EngineState :=
  { state := STATE_MAIN_MENU
    selected_item := 0
    brightness := 5
    is_auto_mode := false
    current_pattern_idx := 0
    info_page := 0
    temp_is_auto_mode := false
    temp_pattern_idx := 0 }

/-- The display-pattern derivation switch (sketch lines 371–400),
computed from the state reached after a transition. -/
def display_pattern (s : EngineState) : Nat :=
  match s.state with
  | STATE_MAIN_MENU => 1 <<< s.selected_item
  | STATE_BRIGHTNESS => if s.brightness = 0 then 0 else (1 <<< s.brightness) - 1
  | STATE_MODE_SELECT => if s.temp_is_auto_mode then 0x000C else 0x0003
  | STATE_MANUAL_MODE => patternAt s.temp_pattern_idx
  | STATE_AUTO_MODE => patternAt s.current_pattern_idx
  | STATE_INFO => if s.info_page = 0 then 0x000F else 0x00F0
  | STATE_RESET => 0xAAAA
  | STATE_POWER_OFF => 0

/-- The `switch (state)` event dispatch of `MenuLogic_Thread` (sketch
lines 262–365) for the non-POWER_OFF states: returns the new state and
the `update_display` flag. -/
def menuSwitch (s : EngineState) (ev : button_event_t) : EngineState × Bool :=
  match s.state with
  | STATE_MAIN_MENU =>
    if ev.button_id = 1 ∧ ev.type = PRESS_SINGLE then
      ({ s with selected_item := (s.selected_item + 1) % MENU_ITEMS_COUNT }, true)
    else if ev.button_id = 3 ∧ ev.type = PRESS_SINGLE then
      ({ s with selected_item :=
          (s.selected_item - 1 + MENU_ITEMS_COUNT) % MENU_ITEMS_COUNT }, true)
    else if ev.button_id = 2 ∧ ev.type = PRESS_SINGLE then
      let s1 :=
        match s.selected_item with
        | 0 => { s with state := STATE_BRIGHTNESS }
        | 1 => { s with state := STATE_MODE_SELECT,
                        temp_is_auto_mode := s.is_auto_mode }
        | 2 => { s with state := STATE_INFO, info_page := 0 }
        | 3 => { s with state := STATE_RESET }
        | _ => s
      (s1, true)
    else if ev.button_id = 3 ∧ ev.type = PRESS_LONG then
      ({ s with state := STATE_POWER_OFF }, true)
    else (s, false)
  | STATE_BRIGHTNESS =>
    if ev.button_id = 2 ∧ ev.type = PRESS_SINGLE then
      ({ s with brightness :=
          if s.brightness < BRIGHTNESS_MAX then s.brightness + 1 else s.brightness },
       true)
    else if ev.button_id = 3 ∧ ev.type = PRESS_SINGLE then
      ({ s with brightness :=
          if s.brightness > BRIGHTNESS_MIN then s.brightness - 1 else s.brightness },
       true)
    else if ev.button_id = 1 ∧ ev.type = PRESS_SINGLE then
      ({ s with state := STATE_MAIN_MENU }, true)
    else (s, false)
  | STATE_MODE_SELECT =>
    if ev.button_id = 1 ∧ ev.type = PRESS_SINGLE then
      ({ s with temp_is_auto_mode := !s.temp_is_auto_mode }, true)
    else if ev.button_id = 2 ∧ ev.type = PRESS_SINGLE then
      let s1 := { s with is_auto_mode := s.temp_is_auto_mode }
      if s1.is_auto_mode then
        ({ s1 with state := STATE_AUTO_MODE }, true)
      else
        ({ s1 with state := STATE_MANUAL_MODE,
                   temp_pattern_idx := s1.current_pattern_idx }, true)
    else if ev.button_id = 3 ∧ ev.type = PRESS_SINGLE then
      ({ s with state := STATE_MAIN_MENU }, true)
    else (s, false)
  | STATE_MANUAL_MODE =>
    if ev.button_id = 1 ∧ ev.type = PRESS_SINGLE then
      ({ s with temp_pattern_idx := (s.temp_pattern_idx + 1) % NUM_PATTERNS }, true)
    else if ev.button_id = 2 ∧ ev.type = PRESS_SINGLE then
      ({ s with current_pattern_idx := s.temp_pattern_idx,
                state := STATE_MAIN_MENU }, true)
    else if ev.button_id = 3 ∧ ev.type = PRESS_SINGLE then
      ({ s with state := STATE_MAIN_MENU }, true)
    else (s, false)
  | STATE_AUTO_MODE =>
    if ev.button_id = 1 ∧ ev.type = PRESS_SINGLE then
      ({ s with state := STATE_MAIN_MENU }, true)
    else (s, false)
  | STATE_INFO =>
    if ev.button_id = 1 ∧ ev.type = PRESS_SINGLE then
      ({ s with info_page := (s.info_page + 1) % 2 }, true)
    else if ev.button_id = 3 ∧ ev.type = PRESS_SINGLE then
      ({ s with state := STATE_MAIN_MENU }, true)
    else (s, false)
  | STATE_RESET =>
    if ev.button_id = 2 ∧ ev.type = PRESS_DOUBLE then
      ({ s with brightness := 5, is_auto_mode := false,
                current_pattern_idx := 0, state := STATE_MAIN_MENU }, true)
    else if ev.button_id = 3 ∧ ev.type = PRESS_SINGLE then
      ({ s with state := STATE_MAIN_MENU }, true)
    else (s, false)
  | STATE_POWER_OFF => (s, false)

/-- Processing of one received button event by `MenuLogic_Thread`
(sketch lines 248–403).  `STATE_POWER_OFF` is handled before the switch
(lines 250–260); its `continue` skips the display-update section even
when the wake transition is taken, so no update is emitted from it.
Otherwise, when a transition sets `update_display`, exactly one
`display_info_t` with the freshly derived pattern and the current
brightness is emitted. -/
def menuProcess (s : EngineState) (ev : button_event_t) :
    EngineState × Option display_info_t :=
  if s.state = STATE_POWER_OFF then
    if ev.button_id = 1 ∧ ev.type = PRESS_LONG then
      ({ s with state := STATE_MAIN_MENU, selected_item := 0, brightness := 5,
                is_auto_mode := false, current_pattern_idx := 0 }, none)
    else (s, none)
  else
    let step := menuSwitch s ev
    (step.1,
     if step.2 then some ⟨display_pattern step.1, step.1.brightness⟩ else none)

/-- The timeout argument of `MenuLogic_Thread`'s `xQueueReceive` call
(sketch lines 233–243): a finite 2000 ms timeout in `STATE_AUTO_MODE`,
`portMAX_DELAY` (block forever, modelled as `none`) everywhere else. -/
def receiveTimeoutMs (st : menu_state_t) : Option Nat :=
  if st = STATE_AUTO_MODE then some AUTO_CYCLE_PERIOD_MS else none

/-- One iteration of `MenuLogic_Thread`'s loop body: `none` models the
receive timing out (possible only where `receiveTimeoutMs` is finite,
sketch lines 235–240), `some ev` models a received event. -/
def menuLoopBody (s : EngineState) (recv : Option button_event_t) :
    EngineState × Option display_info_t :=
  match recv with
  | none =>
    if s.state = STATE_AUTO_MODE then
      let s1 := { s with current_pattern_idx :=
                    (s.current_pattern_idx + 1) % NUM_PATTERNS }
      (s1, some ⟨patternAt s1.current_pattern_idx, s1.brightness⟩)
    else (s, none)
  | some ev => menuProcess s ev

/-! ## Display Sink (`DisplayManager_Thread`) -/

/-- `max_duty = (1 << 10) - 1` (sketch line 439). -/
def max_duty : Nat := (1 <<< 10) - 1

/-- `duty = max_duty * (10 - info.brightness) / 10` (sketch line 440),
exact integer arithmetic. -/
def dutyOf (brightness : Nat) : Nat := max_duty * (10 - brightness) / 10

/-- The Display Sink's only persistent local: the previously applied
brightness, initialized to `-1` (sketch line 408). -/
structure SinkState where
  current_brightness : Int
deriving DecidableEq, Repr

/-- One iteration of `DisplayManager_Thread`'s loop body (sketch lines
433–445): shift out the pattern, and recompute and write the PWM duty
only when the received brightness differs from the previously applied
one.  Returns the new sink state and the duty written (if any). -/
def sinkApply (st : SinkState) (info : display_info_t) :
    SinkState × Option Nat :=
  if (info.brightness : Int) ≠ st.current_brightness then
    ({ current_brightness := (info.brightness : Int) }, some (dutyOf info.brightness))
  else (st, none)

example : dutyOf 10 = 0 := by decide
example : dutyOf 0 = 1023 := by decide

/-! ## Theorems -/

/-- C1: processing (button 2, DOUBLE) in STATE_RESET resets brightness,
auto mode and pattern index and returns to MAIN_MENU, but leaves
`selected_item` untouched: from `selected_item = 3` (the value it
necessarily has on entering RESET from the menu) it stays 3, so the
spec's `selected_item = 0` is not performed by the code. -/
theorem reset_double_keeps_selected_item :
    (menuProcess ⟨STATE_RESET, 3, 7, true, 2, 0, false, 0⟩ ⟨2, PRESS_DOUBLE, 0⟩).1 =
      ⟨STATE_MAIN_MENU, 3, 5, false, 0, 0, false, 0⟩ ∧
    (menuProcess ⟨STATE_RESET, 3, 7, true, 2, 0, false, 0⟩
      ⟨2, PRESS_DOUBLE, 0⟩).1.selected_item ≠ 0 := by
  decide

/-- C4: when a pending sequence of 3 clicks with press timestamps
`t1 t2 t3` times out, the resolution policy emits TRIPLE when the gap
between press 1 and press 3 is below 700 ms; otherwise DOUBLE then
SINGLE when presses 1–2 are within 500 ms; otherwise SINGLE then DOUBLE
when presses 2–3 are within 500 ms; otherwise three SINGLEs — in
exactly these emission orders, for all press timestamps. -/
theorem triple_click_resolution (t1 t2 t3 : Nat) :
    (t3 - t1 < 700 → resolveClicks 3 t1 t2 t3 = [PRESS_TRIPLE]) ∧
    (¬ t3 - t1 < 700 → t2 - t1 < 500 →
      resolveClicks 3 t1 t2 t3 = [PRESS_DOUBLE, PRESS_SINGLE]) ∧
    (¬ t3 - t1 < 700 → ¬ t2 - t1 < 500 → t3 - t2 < 500 →
      resolveClicks 3 t1 t2 t3 = [PRESS_SINGLE, PRESS_DOUBLE]) ∧
    (¬ t3 - t1 < 700 → ¬ t2 - t1 < 500 → ¬ t3 - t2 < 500 →
      resolveClicks 3 t1 t2 t3 = [PRESS_SINGLE, PRESS_SINGLE, PRESS_SINGLE]) := by
  refine ⟨?_, ?_, ?_, ?_⟩ <;> intros <;> simp [resolveClicks, *]

/-- Witness for `triple_click_resolution`: presses at 0, 100, 200 ms
resolve to a single TRIPLE. -/
theorem triple_click_resolution_witness :
    resolveClicks 3 0 100 200 = [PRESS_TRIPLE] :=
  (triple_click_resolution 0 100 200).1 (by decide)

/-- C6: an accepted release after a press held ≥ 1500 ms emits exactly
one LONG event, timestamped at the release, and zeroes `click_counter`
and `last_release_time`, regardless of any prior click history in the
tracker; the multi-click timeout check in the same tick cannot fire
afterwards because the click count is 0. -/
theorem long_press_terminates_clicks (id : Nat) (b : button_tracker_t) (now : Nat)
    (hstate : b.last_state = true)
    (hdeb : b.debounce_counter + 1 ≥ DEBOUNCE_TICKS)
    (hdur : now - b.press_start_time ≥ LONG_PRESS_MIN_MS) :
    buttonTick id b false now =
      ({ b with debounce_counter := 0, last_state := false,
                click_counter := 0, last_release_time := 0 },
       [⟨id, PRESS_LONG, now⟩]) := by
  simp [buttonTick, onRelease, hstate, hdeb, hdur]

/-- Witness for `long_press_terminates_clicks`: a tracker with a pending
double-click and a press held for 1600 ms. -/
theorem long_press_terminates_clicks_witness :
    buttonTick 2 ⟨true, 3, 0, 120, 2, fun _ => 0⟩ false 1600 =
      (({ last_state := false, debounce_counter := 0, press_start_time := 0,
          last_release_time := 0, click_counter := 0, press_times := fun _ => 0 } :
          button_tracker_t),
       [⟨2, PRESS_LONG, 1600⟩]) :=
  long_press_terminates_clicks 2 ⟨true, 3, 0, 120, 2, fun _ => 0⟩ 1600
    rfl (by decide) (by decide)

/-- C7: in STATE_AUTO_MODE the receive timeout is 2000 ms, a timeout
advances `current_pattern_idx` by one modulo 4, emits exactly one
display update carrying the pattern table entry at the new index and
the current persistent brightness, and stays in STATE_AUTO_MODE; every
other state receives with an infinite timeout, so no timeout occurs
there. -/
theorem auto_mode_timeout_advance (s : EngineState) :
    receiveTimeoutMs STATE_AUTO_MODE = some 2000 ∧
    (s.state = STATE_AUTO_MODE →
      menuLoopBody s none =
        ({ s with current_pattern_idx := (s.current_pattern_idx + 1) % 4 },
         some ⟨patternAt ((s.current_pattern_idx + 1) % 4), s.brightness⟩) ∧
      (menuLoopBody s none).1.state = STATE_AUTO_MODE) ∧
    (s.state ≠ STATE_AUTO_MODE → receiveTimeoutMs s.state = none) := by
  refine ⟨by decide, fun h => ?_, fun h => ?_⟩
  · constructor
    · simp [menuLoopBody, h, NUM_PATTERNS]
    · simp [menuLoopBody, h]
  · simp [receiveTimeoutMs, h]

/-- Witness for `auto_mode_timeout_advance`: a timeout in AUTO_MODE at
pattern index 3 wraps to index 0 and emits `patterns[0] = 0xFFFF` with
the current brightness. -/
theorem auto_mode_timeout_advance_witness :
    menuLoopBody ⟨STATE_AUTO_MODE, 1, 7, true, 3, 0, true, 2⟩ none =
      (⟨STATE_AUTO_MODE, 1, 7, true, 0, 0, true, 2⟩, some ⟨0xFFFF, 7⟩) := by
  have h := ((auto_mode_timeout_advance
      ⟨STATE_AUTO_MODE, 1, 7, true, 3, 0, true, 2⟩).2.1 rfl).1
  rw [h]; decide

/-- C8: in STATE_BRIGHTNESS a (2, SINGLE) event sets brightness to
`min (brightness+1) 10` and a (3, SINGLE) event to `brightness - 1`
(truncated subtraction, i.e. `max (brightness-1) 0`), and every loop
iteration (any state, any received event or timeout) preserves
`brightness ≤ 10`. -/
theorem brightness_clamped (s : EngineState) (recv : Option button_event_t)
    (hb : s.brightness ≤ 10) :
    (∀ ev : button_event_t, s.state = STATE_BRIGHTNESS →
      ev.button_id = 2 → ev.type = PRESS_SINGLE →
      (menuProcess s ev).1.brightness = min (s.brightness + 1) 10) ∧
    (∀ ev : button_event_t, s.state = STATE_BRIGHTNESS →
      ev.button_id = 3 → ev.type = PRESS_SINGLE →
      (menuProcess s ev).1.brightness = s.brightness - 1) ∧
    (menuLoopBody s recv).1.brightness ≤ 10 := by
  refine ⟨fun ev h1 h2 h3 => ?_, fun ev h1 h2 h3 => ?_, ?_⟩
  · simp [menuProcess, menuSwitch, h1, h2, h3, BRIGHTNESS_MAX]
    split_ifs <;> omega
  · simp [menuProcess, menuSwitch, h1, h2, h3, BRIGHTNESS_MIN]
    omega
  · rcases recv with _ | ev
    · rcases s with ⟨st, sel, b, am, idx, ip, tam, tpi⟩
      cases st <;> simp_all [menuLoopBody]
    · rcases s with ⟨st, sel, b, am, idx, ip, tam, tpi⟩
      cases st <;>
        simp_all [menuLoopBody, menuProcess, menuSwitch,
          BRIGHTNESS_MAX, BRIGHTNESS_MIN] <;>
        split_ifs <;>
        (try rcases sel with _ | _ | _ | _ | sel) <;>
        simp_all <;> omega

/-- Witness for `brightness_clamped`: at brightness 10 in BRIGHTNESS, a
(2, SINGLE) clamps at `min 11 10 = 10`. -/
theorem brightness_clamped_witness :
    (menuProcess ⟨STATE_BRIGHTNESS, 0, 10, false, 0, 0, false, 0⟩
      ⟨2, PRESS_SINGLE, 0⟩).1.brightness = min (10 + 1) 10 :=
  (brightness_clamped ⟨STATE_BRIGHTNESS, 0, 10, false, 0, 0, false, 0⟩
    none (by decide)).1 ⟨2, PRESS_SINGLE, 0⟩ rfl rfl rfl

/-- C9: the MODE_SELECT display pattern staged to Manual
(`temp_is_auto_mode = false`) is exactly bits 0–1 (0x0003), staged to
Auto exactly bits 2–3 (0x000C); the two share no set bit, and neither
equals the single-bit MAIN_MENU pattern of any `selected_item` in
0..3. -/
theorem mode_select_patterns_disjoint (c1 c2 : EngineState)
    (h1 : c1.state = STATE_MODE_SELECT) (h2 : c2.state = STATE_MODE_SELECT)
    (hm : c1.temp_is_auto_mode = false) (ha : c2.temp_is_auto_mode = true) :
    display_pattern c1 &&& display_pattern c2 = 0 ∧
    display_pattern c1 = 0x0003 ∧ display_pattern c2 = 0x000C ∧
    (∀ j, (display_pattern c1).testBit j ↔ (j = 0 ∨ j = 1)) ∧
    (∀ j, (display_pattern c2).testBit j ↔ (j = 2 ∨ j = 3)) ∧
    (∀ m : EngineState, m.state = STATE_MAIN_MENU → m.selected_item < 4 →
      display_pattern m ≠ display_pattern c1 ∧
      display_pattern m ≠ display_pattern c2) := by
  have e1 : display_pattern c1 = 0x0003 := by simp [display_pattern, h1, hm]
  have e2 : display_pattern c2 = 0x000C := by simp [display_pattern, h2, ha]
  refine ⟨by rw [e1, e2]; decide, e1, e2, fun j => ?_, fun j => ?_,
    fun m hs hlt => ?_⟩
  · rw [e1]
    rcases j with _ | _ | j
    · decide
    · decide
    · simp [Nat.testBit_succ]
  · rw [e2]
    rcases j with _ | _ | _ | _ | j
    · decide
    · decide
    · decide
    · decide
    · simp [Nat.testBit_succ]
  · have em : display_pattern m = 1 <<< m.selected_item := by
      simp [display_pattern, hs]
    rw [em, e1, e2]
    interval_cases h : m.selected_item <;> decide

/-- Witness for `mode_select_patterns_disjoint`: concrete MODE_SELECT
contexts staged to Manual and to Auto. -/
theorem mode_select_patterns_disjoint_witness :
    display_pattern ⟨STATE_MODE_SELECT, 1, 5, false, 0, 0, false, 0⟩ &&&
      display_pattern ⟨STATE_MODE_SELECT, 1, 5, false, 0, 0, true, 0⟩ = 0 :=
  (mode_select_patterns_disjoint
    ⟨STATE_MODE_SELECT, 1, 5, false, 0, 0, false, 0⟩
    ⟨STATE_MODE_SELECT, 1, 5, false, 0, 0, true, 0⟩ rfl rfl rfl rfl).1

/-- Modelled from the spec: the (state, button-id, press-type)
combinations listed as transitions in the spec's state-machine table
(§4.2).  Used to compare the table against the code's dispatch. -/
def specListed (st : menu_state_t) (ev : button_event_t) : Prop :=
  match st with
  | STATE_MAIN_MENU =>
      (ev.button_id = 1 ∧ ev.type = PRESS_SINGLE) ∨
      (ev.button_id = 3 ∧ ev.type = PRESS_SINGLE) ∨
      (ev.button_id = 2 ∧ ev.type = PRESS_SINGLE) ∨
      (ev.button_id = 3 ∧ ev.type = PRESS_LONG)
  | STATE_BRIGHTNESS =>
      (ev.button_id = 2 ∧ ev.type = PRESS_SINGLE) ∨
      (ev.button_id = 3 ∧ ev.type = PRESS_SINGLE) ∨
      (ev.button_id = 1 ∧ ev.type = PRESS_SINGLE)
  | STATE_MODE_SELECT =>
      (ev.button_id = 1 ∧ ev.type = PRESS_SINGLE) ∨
      (ev.button_id = 2 ∧ ev.type = PRESS_SINGLE) ∨
      (ev.button_id = 3 ∧ ev.type = PRESS_SINGLE)
  | STATE_MANUAL_MODE =>
      (ev.button_id = 1 ∧ ev.type = PRESS_SINGLE) ∨
      (ev.button_id = 2 ∧ ev.type = PRESS_SINGLE) ∨
      (ev.button_id = 3 ∧ ev.type = PRESS_SINGLE)
  | STATE_AUTO_MODE =>
      ev.button_id = 1 ∧ ev.type = PRESS_SINGLE
  | STATE_INFO =>
      (ev.button_id = 1 ∧ ev.type = PRESS_SINGLE) ∨
      (ev.button_id = 3 ∧ ev.type = PRESS_SINGLE)
  | STATE_RESET =>
      (ev.button_id = 2 ∧ ev.type = PRESS_DOUBLE) ∨
      (ev.button_id = 3 ∧ ev.type = PRESS_SINGLE)
  | STATE_POWER_OFF =>
      ev.button_id = 1 ∧ ev.type = PRESS_LONG

instance (st : menu_state_t) (ev : button_event_t) :
    Decidable (specListed st ev) := by
  unfold specListed
  cases st <;> infer_instance

set_option maxHeartbeats 2000000 in
/-- C5: for every state and every event not listed as a transition for
that state in the spec's table, the Menu Engine leaves the state and the
entire menu context (including both staging fields) unchanged and emits
no display update. -/
theorem unlisted_events_are_noops (s : EngineState) (ev : button_event_t)
    (h : ¬ specListed s.state ev) : menuProcess s ev = (s, none) := by
  rcases s with ⟨st, sel, b, am, idx, ip, tam, tpi⟩
  cases st <;>
    simp only [specListed, not_or] at h <;>
    simp only [menuProcess, menuSwitch] <;>
    split_ifs <;>
    simp_all

/-- Witness for `unlisted_events_are_noops`: a (button 2, LONG) event in
MAIN_MENU is not listed and leaves everything unchanged, emitting
nothing. -/
theorem unlisted_events_are_noops_witness :
    menuProcess initEngine ⟨2, PRESS_LONG, 0⟩ = (initEngine, none) :=
  unlisted_events_are_noops initEngine ⟨2, PRESS_LONG, 0⟩ (by decide)

/-- C10: the Display Sink computes the duty as
`max_duty * (10 - brightness) / 10` with `max_duty = 1023`, so
brightness 10 gives duty 0 and brightness 0 gives duty 1023, and it
recomputes and writes the duty exactly when the received brightness
differs from the previously applied one. -/
theorem display_sink_duty (st : SinkState) (info : display_info_t) :
    max_duty = 1023 ∧
    (∀ b, dutyOf b = 1023 * (10 - b) / 10) ∧
    dutyOf 10 = 0 ∧ dutyOf 0 = 1023 ∧
    ((info.brightness : Int) = st.current_brightness →
      sinkApply st info = (st, none)) ∧
    ((info.brightness : Int) ≠ st.current_brightness →
      sinkApply st info =
        (⟨(info.brightness : Int)⟩, some (dutyOf info.brightness))) := by
  refine ⟨by decide, fun b => by simp [dutyOf, max_duty], by decide, by decide,
    fun h => ?_, fun h => ?_⟩
  · simp [sinkApply, h]
  · simp [sinkApply, h]

/-- Witness for `display_sink_duty`: the initial sink state (previous
brightness −1) receiving brightness 5 writes duty 511. -/
theorem display_sink_duty_witness :
    sinkApply ⟨-1⟩ ⟨0xFFFF, 5⟩ = (⟨(5 : Int)⟩, some 511) := by
  have h := (display_sink_duty ⟨-1⟩ ⟨0xFFFF, 5⟩).2.2.2.2.2 (by decide)
  rw [h]; decide

/-! ## A burst of four short presses

Raw samples for one button, one per 5 ms polling tick: each press is 4
consecutive pressed samples (accepted by the debounce threshold) and
each release 4 released samples, so the presses are accepted at
15, 55, 95 and 135 ms — every press is ≤ 300 ms and every gap between a
release and the next press is far below the 700 ms click window. -/

/-- The first 27 samples of the burst: three complete short presses and
the first 3 samples of the fourth press (one tick short of the debounce
threshold). -/
def burstLead : List Bool :=
  (List.replicate 4 true ++ List.replicate 4 false) ++
  (List.replicate 4 true ++ List.replicate 4 false) ++
  (List.replicate 4 true ++ List.replicate 4 false) ++
  List.replicate 3 true

/-- The tracker state one tick before the fourth press is accepted. -/
def trackerBefore4th : button_tracker_t :=
  (runTicks 1 initTracker burstLead 0).1

/-- The complete burst: four short presses followed by enough idle
samples for the multi-click window (700 ms after the last release at
155 ms) to expire at 855 ms, tick 171. -/
def burstFull : List Bool :=
  (List.replicate 4 true ++ List.replicate 4 false) ++
  (List.replicate 4 true ++ List.replicate 4 false) ++
  (List.replicate 4 true ++ List.replicate 4 false) ++
  (List.replicate 4 true ++ List.replicate 4 false) ++
  List.replicate 140 false

set_option maxRecDepth 100000 in
/-- C2: the fourth short press of a rapid burst is an accepted press
transition (the tracker is stable-released with the debounce counter at
threshold − 1 and a pressed sample arrives) whose `click_counter`
becomes 4, so its timestamp is recorded at index 4 — past the last
index (3) of the 4-element `press_times` array of `button_tracker_t`,
an out-of-bounds write in the C program. -/
theorem fourth_press_writes_index_four :
    trackerBefore4th.last_state = false ∧
    trackerBefore4th.debounce_counter + 1 = DEBOUNCE_TICKS ∧
    trackerBefore4th.click_counter = 3 ∧
    (buttonTick 1 trackerBefore4th true 135).1.click_counter = 4 ∧
    (buttonTick 1 trackerBefore4th true 135).1.press_times 4 = 135 ∧
    pressWriteIndex
      { trackerBefore4th with debounce_counter := 0, last_state := true }
      135 = 4 :=
  ⟨rfl, rfl, rfl, rfl, rfl, rfl⟩

set_option maxRecDepth 100000 in
/-- C3, counterexample: the complete four-press burst produces zero
logical events — the four presses join one pending sequence
(`click_counter` reaches 4), and when the click window expires the
resolution policy has no case for a count of 4, so it emits nothing and
clears the sequence: four physical presses are dropped. -/
theorem four_press_burst_emits_no_events :
    (runTicks 1 initTracker (burstLead ++ [true]) 0).1.click_counter = 4 ∧
    (runTicks 1 initTracker burstFull 0).2 = [] ∧
    (runTicks 1 initTracker burstFull 0).1.click_counter = 0 :=
  ⟨rfl, rfl, rfl⟩

/-- The number of physical presses represented by one emitted logical
event. -/
def pressMult : press_type_t → Nat
  | PRESS_SINGLE => 1
  | PRESS_DOUBLE => 2
  | PRESS_TRIPLE => 3
  | PRESS_LONG => 1

/-- C3, as amended: when a pending click sequence times out, the
resolution policy emits events whose press multiplicities sum to
exactly the click count whenever the count is 1, 2 or 3 (no press
dropped, no merging beyond the SINGLE/DOUBLE/TRIPLE grouping rules);
for a count of 4 or more it emits nothing, dropping every press of the
sequence. -/
theorem click_resolution_conserves_presses (count t1 t2 t3 : Nat) :
    (1 ≤ count → count ≤ 3 →
      ((resolveClicks count t1 t2 t3).map pressMult).sum = count) ∧
    (4 ≤ count → resolveClicks count t1 t2 t3 = []) := by
  constructor
  · intro h1 h3
    have h : count = 1 ∨ count = 2 ∨ count = 3 := by omega
    rcases h with h | h | h <;> subst h <;>
      simp [resolveClicks, pressMult] <;>
      split_ifs <;> simp [pressMult]
  · intro h4
    unfold resolveClicks
    rw [if_neg (by omega), if_neg (by omega), if_neg (by omega)]

/-- Witness for `click_resolution_conserves_presses`: three presses at
0, 600 and 900 ms resolve to SINGLE then DOUBLE, which together carry
3 presses. -/
theorem click_resolution_conserves_presses_witness :
    ((resolveClicks 3 0 600 900).map pressMult).sum = 3 :=
  (click_resolution_conserves_presses 3 0 600 900).1 (by decide) (by decide)
